import Mathlib

/-
Verification of the AssetInformationExplorer Soroban contract
(contracts/hello-world/src/lib.rs).

Embedding choices:
- Soroban `String` is modelled as Lean `String`; `Address` by its string
  form (the contract never inspects addresses); `i128` as `Int` (the
  contract stores supplies but performs no arithmetic on them); `u64` as
  `Nat` with explicit bounds where overflow matters.
- The instance storage holds keys `AssetBook::Asset(code)` and the symbol
  `A_COUNT`; it is modelled as a `Storage` structure with one field per key
  family. An absent key is `none`.
- A contract panic traps, and the host discards every storage write of the
  call; a call is therefore modelled as `Except ContractError (Storage × Bool)`
  where an `error` result leaves the pre-call storage in force.
- The `count += 1` on the `u64` counter is modelled as a fatal abort when the
  incremented value would exceed the `u64` range. The release profile is not
  part of the sources; the spec fixes the intent: the counter is a u64
  "incremented by exactly one each successful registration; never
  decremented", which rules out silent wrap-around.
- `extend_ttl` and `log!` have no effect on the modelled state and are
  omitted from the embedding.
-/

namespace AssetExplorer

/-- Number of values of the Rust `u64` type; the counter must stay below it. -/
def U64_BOUND : Nat := 2 ^ 64

/-- Asset record persisted on chain (struct `AssetInfo` in lib.rs). -/
structure AssetInfo where
  asset_code : String
  issuer : String
  total_supply : Int
  description : String
  is_active : Bool
  registration_time : Nat
  deriving Repr, DecidableEq

/-- Placeholder issuer address used by the not-found sentinel record. -/
def SENTINEL_ISSUER : String :=
  "GAAAAAAAAAAAAAAAAAAAAAAAAAAAAAAAAAAAAAAAAAAAAAAAAAAAAWHF"

/-- The instance storage of the contract: the `AssetBook::Asset(code)` keys
and the `A_COUNT` counter key. `none` models a key that was never set. -/
structure Storage where
  assets : String → Option AssetInfo
  asset_count : Option Nat

/-- Storage of a freshly deployed contract: no asset keys, no counter. -/
def Storage.init : Storage :=
  { assets := fun _ => none, asset_count := none }

/-- Host environment data the contract reads: the ledger timestamp
(`env.ledger().timestamp()`), a `u64`. -/
structure Env where
  timestamp : Nat

/-- The two panics of lib.rs plus the abort of the checked `u64` increment.
Any of them traps the call; the host rolls back all writes of the call. -/
inductive ContractError
  | assetAlreadyExists
  | assetNotFound
  | counterOverflow
  deriving Repr, DecidableEq

/-- `get_asset_info`: return the stored record for `asset_code`, or the
sentinel record (`unwrap_or` in lib.rs) when the key was never set. -/
def get_asset_info (s : Storage) (asset_code : String) : AssetInfo :=
  (s.assets asset_code).getD
    { asset_code := "NOT_FOUND"
      issuer := SENTINEL_ISSUER
      total_supply := 0
      description := "Asset not found"
      is_active := false
      registration_time := 0 }

/-- `register_asset`: abort when an active record exists, otherwise store a
fresh active record stamped with the ledger time, then increment the
counter (read with `unwrap_or(0)`), and return `true`. -/
def register_asset (env : Env) (s : Storage) (asset_code issuer : String)
    (total_supply : Int) (description : String) :
    Except ContractError (Storage × Bool) :=
  let existing_asset := get_asset_info s asset_code
  if existing_asset.is_active then
    .error .assetAlreadyExists
  else
    let time := env.timestamp
    let new_asset : AssetInfo :=
      { asset_code := asset_code
        issuer := issuer
        total_supply := total_supply
        description := description
        is_active := true
        registration_time := time }
    let s1 : Storage :=
      { s with assets := fun k => if k = asset_code then some new_asset else s.assets k }
    let count : Nat := s1.asset_count.getD 0
    if count + 1 < U64_BOUND then
      .ok ({ s1 with asset_count := some (count + 1) }, true)
    else
      .error .counterOverflow

/-- `update_asset_supply`: fetch via `get_asset_info`; abort when the record
is inactive (which includes the not-found sentinel), otherwise overwrite
`total_supply` and return `true`. -/
def update_asset_supply (s : Storage) (asset_code : String) (new_supply : Int) :
    Except ContractError (Storage × Bool) :=
  let asset := get_asset_info s asset_code
  if !asset.is_active then
    .error .assetNotFound
  else
    let asset1 := { asset with total_supply := new_supply }
    .ok ({ s with
           assets := fun k => if k = asset_code then some asset1 else s.assets k }, true)

/-- `get_total_assets`: the counter, `unwrap_or(0)`. -/
def get_total_assets (s : Storage) : Nat :=
  s.asset_count.getD 0

/-! ### Traces of contract invocations -/

/-- One invocation of the public contract surface. A `register` carries the
ledger timestamp the host supplies to that call. -/
inductive Op
  | register (time : Nat) (asset_code issuer : String)
      (total_supply : Int) (description : String)
  | updateSupply (asset_code : String) (new_supply : Int)
  | getInfo (asset_code : String)
  | getCount

/-- Effect of one invocation on storage. An aborted call leaves storage
unchanged (host rollback); the two read operations never write. -/
def step (s : Storage) : Op → Storage
  | .register t c issuer supply desc =>
      match register_asset { timestamp := t } s c issuer supply desc with
      | .ok p => p.1
      | .error _ => s
  | .updateSupply c x =>
      match update_asset_supply s c x with
      | .ok p => p.1
      | .error _ => s
  | .getInfo _ => s
  | .getCount => s

/-- Storage after a sequence of invocations. -/
def run (s : Storage) : List Op → Storage
  | [] => s
  | op :: ops => run (step s op) ops

/-- Whether an invocation is a `register_asset` call that succeeds from `s`. -/
def isSuccessfulRegister (s : Storage) : Op → Bool
  | .register t c issuer supply desc =>
      match register_asset { timestamp := t } s c issuer supply desc with
      | .ok _ => true
      | .error _ => false
  | _ => false

/-- Number of successful registrations along a trace started in `s`. -/
def registerSuccesses (s : Storage) : List Op → Nat
  | [] => 0
  | op :: ops =>
      (if isSuccessfulRegister s op then 1 else 0) + registerSuccesses (step s op) ops

/-! ### Inversion lemmas for the two mutating operations -/

/-- Characterisation of a successful `register_asset` call: the pre-state had
no active record for the code, the counter stayed in `u64` range, the call
returned `true`, the counter key now holds the incremented value, and the
asset map gained exactly the new record at the code. -/
theorem register_asset_ok_elim (env : Env) (s : Storage) (c issuer : String)
    (supply : Int) (desc : String) (s' : Storage) (b : Bool)
    (hok : register_asset env s c issuer supply desc = .ok (s', b)) :
    (get_asset_info s c).is_active = false ∧
    s.asset_count.getD 0 + 1 < U64_BOUND ∧
    b = true ∧
    s'.asset_count = some (s.asset_count.getD 0 + 1) ∧
    s'.assets = fun k =>
      if k = c then
        some { asset_code := c, issuer := issuer, total_supply := supply,
               description := desc, is_active := true,
               registration_time := env.timestamp }
      else s.assets k := by
  unfold register_asset at hok
  by_cases h1 : (get_asset_info s c).is_active = true
  · simp [h1] at hok
  · rw [Bool.not_eq_true] at h1
    simp only [h1, Bool.false_eq_true, if_false] at hok
    by_cases h2 : s.asset_count.getD 0 + 1 < U64_BOUND
    · simp only [h2, if_true] at hok
      obtain ⟨hs, hb⟩ := Prod.mk.injEq .. ▸ Except.ok.inj hok
      subst hs hb
      exact ⟨h1, h2, rfl, rfl, rfl⟩
    · simp [h2] at hok

/-- Characterisation of a successful `update_asset_supply` call: the
pre-state record was active, the call returned `true`, the counter key is
untouched, and the asset map changed only at the code, where the stored
record is the old one with the new supply. -/
theorem update_asset_supply_ok_elim (s : Storage) (c : String) (x : Int)
    (s' : Storage) (b : Bool)
    (hok : update_asset_supply s c x = .ok (s', b)) :
    (get_asset_info s c).is_active = true ∧
    b = true ∧
    s'.asset_count = s.asset_count ∧
    s'.assets = fun k =>
      if k = c then some { get_asset_info s c with total_supply := x }
      else s.assets k := by
  unfold update_asset_supply at hok
  by_cases h1 : (get_asset_info s c).is_active = true
  · simp only [h1, Bool.not_true, Bool.false_eq_true, if_false] at hok
    injection hok with h2
    injection h2 with hs hb
    subst hs
    subst hb
    refine ⟨h1, rfl, rfl, ?_⟩
    simp only [h1]
  · rw [Bool.not_eq_true] at h1
    simp [h1] at hok

/-! ### Concrete fixtures reused by the witnesses -/

/-- Record produced by registering "USDC" at ledger time 5. -/
def wRecord : AssetInfo :=
  { asset_code := "USDC", issuer := "GISS", total_supply := 100,
    description := "USD Coin", is_active := true, registration_time := 5 }

/-- Storage after registering "USDC" in the initial storage. -/
def wStorage : Storage :=
  { assets := fun k => if k = "USDC" then some wRecord else none,
    asset_count := some 1 }

/-- Storage after additionally updating the supply of "USDC" to 200. -/
def wStorage2 : Storage :=
  { assets := fun k => if k = "USDC" then some { wRecord with total_supply := 200 }
      else wStorage.assets k,
    asset_count := some 1 }

/-! ### The claims -/

/-- C1: for every code with no active record, after `register_asset` succeeds
the code maps to an active record carrying the requested supply, and the
total-asset counter is exactly one greater than before the call. -/
theorem register_asset_creates_active_record (env : Env) (s : Storage)
    (c issuer : String) (supply : Int) (desc : String) (s' : Storage) (b : Bool)
    (_hact : (get_asset_info s c).is_active = false)
    (hok : register_asset env s c issuer supply desc = .ok (s', b)) :
    (get_asset_info s' c).is_active = true ∧
    (get_asset_info s' c).total_supply = supply ∧
    get_total_assets s' = get_total_assets s + 1 := by
  obtain ⟨-, -, -, hcount, hassets⟩ :=
    register_asset_ok_elim env s c issuer supply desc s' b hok
  refine ⟨?_, ?_, ?_⟩
  · simp [get_asset_info, hassets]
  · simp [get_asset_info, hassets]
  · simp [get_total_assets, hcount]

theorem register_asset_creates_active_record_witness :
    (get_asset_info wStorage "USDC").is_active = true ∧
    (get_asset_info wStorage "USDC").total_supply = 100 ∧
    get_total_assets wStorage = get_total_assets Storage.init + 1 :=
  register_asset_creates_active_record ⟨5⟩ Storage.init "USDC" "GISS" 100 "USD Coin"
    wStorage true rfl rfl

/-- C2: for every code that currently has an active record, a second
`register_asset` call on that code aborts with the duplicate-asset
condition; the aborted call leaves every piece of storage unchanged, since
the host discards all writes of a trapped call. -/
theorem register_asset_duplicate_aborts (env : Env) (s : Storage)
    (c issuer : String) (supply : Int) (desc : String)
    (hact : (get_asset_info s c).is_active = true) :
    register_asset env s c issuer supply desc = .error .assetAlreadyExists ∧
    step s (.register env.timestamp c issuer supply desc) = s := by
  obtain ⟨t⟩ := env
  have h : register_asset ⟨t⟩ s c issuer supply desc = .error .assetAlreadyExists := by
    unfold register_asset
    simp [hact]
  exact ⟨h, by simp [step, h]⟩

theorem register_asset_duplicate_aborts_witness :
    register_asset ⟨7⟩ wStorage "USDC" "GX" 1 "dup" = .error .assetAlreadyExists ∧
    step wStorage (.register 7 "USDC" "GX" 1 "dup") = wStorage :=
  register_asset_duplicate_aborts ⟨7⟩ wStorage "USDC" "GX" 1 "dup" rfl

/-- C3: for every code whose key was never stored, `get_asset_info` does not
fail and returns the sentinel record: inactive, code "NOT_FOUND", zero
supply and time, and the fixed placeholder issuer and description. -/
theorem get_asset_info_never_stored_sentinel (s : Storage) (c : String)
    (habs : s.assets c = none) :
    get_asset_info s c =
      { asset_code := "NOT_FOUND", issuer := SENTINEL_ISSUER, total_supply := 0,
        description := "Asset not found", is_active := false,
        registration_time := 0 } := by
  unfold get_asset_info
  rw [habs]
  rfl

theorem get_asset_info_never_stored_sentinel_witness :
    get_asset_info Storage.init "EURT" =
      { asset_code := "NOT_FOUND", issuer := SENTINEL_ISSUER, total_supply := 0,
        description := "Asset not found", is_active := false,
        registration_time := 0 } :=
  get_asset_info_never_stored_sentinel Storage.init "EURT" rfl

/-- C4: for every code with an active record and every new supply,
`update_asset_supply` succeeds and changes only the `total_supply` field of
the record at that code; its registration time, issuer, description and
active flag read back unchanged. -/
theorem update_asset_supply_frame (s : Storage) (c : String) (x : Int)
    (hact : (get_asset_info s c).is_active = true) :
    ∃ s', update_asset_supply s c x = .ok (s', true) ∧
      (get_asset_info s' c).total_supply = x ∧
      (get_asset_info s' c).registration_time = (get_asset_info s c).registration_time ∧
      (get_asset_info s' c).issuer = (get_asset_info s c).issuer ∧
      (get_asset_info s' c).description = (get_asset_info s c).description ∧
      (get_asset_info s' c).is_active = (get_asset_info s c).is_active := by
  have hok : update_asset_supply s c x =
      .ok ({ s with assets := fun k =>
               if k = c then some { get_asset_info s c with total_supply := x }
               else s.assets k }, true) := by
    unfold update_asset_supply
    simp only [hact, Bool.not_true, Bool.false_eq_true, if_false]
  exact ⟨_, hok, by simp [get_asset_info], by simp [get_asset_info],
    by simp [get_asset_info], by simp [get_asset_info], by simp [get_asset_info]⟩

theorem update_asset_supply_frame_witness :
    ∃ s', update_asset_supply wStorage "USDC" 200 = .ok (s', true) ∧
      (get_asset_info s' "USDC").total_supply = 200 ∧
      (get_asset_info s' "USDC").registration_time =
        (get_asset_info wStorage "USDC").registration_time ∧
      (get_asset_info s' "USDC").issuer = (get_asset_info wStorage "USDC").issuer ∧
      (get_asset_info s' "USDC").description =
        (get_asset_info wStorage "USDC").description ∧
      (get_asset_info s' "USDC").is_active =
        (get_asset_info wStorage "USDC").is_active :=
  update_asset_supply_frame wStorage "USDC" 200 rfl

/-- C5: for every code with no active record, which includes every code never
stored, `update_asset_supply` aborts with the asset-not-found condition; the
aborted call leaves every piece of storage unchanged, since the host
discards all writes of a trapped call. -/
theorem update_asset_supply_missing_aborts (s : Storage) (c : String) (x : Int)
    (hact : (get_asset_info s c).is_active = false) :
    update_asset_supply s c x = .error .assetNotFound ∧
    step s (.updateSupply c x) = s := by
  have h : update_asset_supply s c x = .error .assetNotFound := by
    unfold update_asset_supply
    simp [hact]
  exact ⟨h, by simp [step, h]⟩

theorem update_asset_supply_missing_aborts_witness :
    update_asset_supply Storage.init "USDC" 42 = .error .assetNotFound ∧
    step Storage.init (.updateSupply "USDC" 42) = Storage.init :=
  update_asset_supply_missing_aborts Storage.init "USDC" 42 rfl

/-- Storage after registering "USDC" in the initial storage at ledger time 0. -/
def wStorageT0 : Storage :=
  { assets := fun k => if k = "USDC" then some { wRecord with registration_time := 0 }
      else none,
    asset_count := some 1 }

/-- C6 counterexample: when the host ledger timestamp reads 0, registration
succeeds and stores `registration_time = 0`, which is not strictly positive;
`register_asset` copies the timestamp without any positivity check. -/
theorem register_time_not_positive_at_zero_timestamp :
    register_asset ⟨0⟩ Storage.init "USDC" "GISS" 100 "USD Coin" =
      .ok (wStorageT0, true) ∧
    ¬ 0 < (get_asset_info wStorageT0 "USDC").registration_time :=
  ⟨rfl, by decide⟩

/-- C6 (amended): after `register_asset` succeeds, the stored
`registration_time` equals the host ledger timestamp read at registration,
and is therefore strictly positive whenever that timestamp is. -/
theorem registration_time_eq_host_timestamp (env : Env) (s : Storage)
    (c issuer : String) (supply : Int) (desc : String) (s' : Storage) (b : Bool)
    (hok : register_asset env s c issuer supply desc = .ok (s', b)) :
    (get_asset_info s' c).registration_time = env.timestamp ∧
    (0 < env.timestamp → 0 < (get_asset_info s' c).registration_time) := by
  obtain ⟨-, -, -, -, hassets⟩ :=
    register_asset_ok_elim env s c issuer supply desc s' b hok
  have h : (get_asset_info s' c).registration_time = env.timestamp := by
    simp [get_asset_info, hassets]
  exact ⟨h, fun hp => h ▸ hp⟩

theorem registration_time_eq_host_timestamp_witness :
    (get_asset_info wStorage "USDC").registration_time = Env.timestamp ⟨5⟩ ∧
    (0 < Env.timestamp ⟨5⟩ →
      0 < (get_asset_info wStorage "USDC").registration_time) :=
  registration_time_eq_host_timestamp ⟨5⟩ Storage.init "USDC" "GISS" 100 "USD Coin"
    wStorage true rfl

/-- The counter moves by exactly one on a successful registration and is
untouched by every other invocation. -/
theorem step_counter (s : Storage) (op : Op) :
    get_total_assets (step s op) =
      get_total_assets s + (if isSuccessfulRegister s op then 1 else 0) := by
  cases op with
  | register t c issuer supply desc =>
    cases hr : register_asset { timestamp := t } s c issuer supply desc with
    | ok p =>
      obtain ⟨-, -, -, hcount, -⟩ :=
        register_asset_ok_elim _ _ _ _ _ _ p.1 p.2 (by rw [hr])
      simp [step, isSuccessfulRegister, get_total_assets, hr, hcount]
    | error e => simp [step, isSuccessfulRegister, hr]
  | updateSupply c x =>
    cases hr : update_asset_supply s c x with
    | ok p =>
      obtain ⟨-, -, hcount, -⟩ :=
        update_asset_supply_ok_elim _ _ _ p.1 p.2 (by rw [hr])
      simp [step, isSuccessfulRegister, get_total_assets, hr, hcount]
    | error e => simp [step, isSuccessfulRegister, hr]
  | getInfo c => simp [step, isSuccessfulRegister]
  | getCount => simp [step, isSuccessfulRegister]

/-- The counter after a trace is the counter before plus the number of
successful registrations along the trace. -/
theorem run_counter (s : Storage) (ops : List Op) :
    get_total_assets (run s ops) = get_total_assets s + registerSuccesses s ops := by
  induction ops generalizing s with
  | nil => simp [run, registerSuccesses]
  | cons op ops ih =>
    rw [run, registerSuccesses, ih (step s op), step_counter]
    omega

/-- C7: the counter reads 0 on a fresh deployment, and in every state
reachable by a trace of invocations from the initial storage it equals the
number of successful registrations performed along the trace; no invocation
ever decreases it. -/
theorem total_assets_counts_successful_registrations :
    get_total_assets Storage.init = 0 ∧
    ∀ ops : List Op,
      get_total_assets (run Storage.init ops) =
        registerSuccesses Storage.init ops := by
  refine ⟨rfl, fun ops => ?_⟩
  rw [run_counter]
  simp [get_total_assets, Storage.init]

/-- One invocation never deactivates an active record and never changes its
registration time. -/
theorem step_preserves_active (s : Storage) (op : Op) (c : String)
    (hact : (get_asset_info s c).is_active = true) :
    (get_asset_info (step s op) c).is_active = true ∧
    (get_asset_info (step s op) c).registration_time =
      (get_asset_info s c).registration_time := by
  cases op with
  | register t c' issuer supply desc =>
    cases hr : register_asset { timestamp := t } s c' issuer supply desc with
    | ok p =>
      obtain ⟨hinact, -, -, -, hassets⟩ :=
        register_asset_ok_elim _ _ _ _ _ _ p.1 p.2 (by rw [hr])
      have hne : c ≠ c' := by
        intro h
        rw [h, hinact] at hact
        exact Bool.false_ne_true hact
      have hstep : step s (.register t c' issuer supply desc) = p.1 := by
        simp [step, hr]
      have heq : get_asset_info p.1 c = get_asset_info s c := by
        unfold get_asset_info
        rw [hassets]
        simp [hne]
      rw [hstep, heq]
      exact ⟨hact, rfl⟩
    | error e =>
      have hstep : step s (.register t c' issuer supply desc) = s := by
        simp [step, hr]
      rw [hstep]
      exact ⟨hact, rfl⟩
  | updateSupply c' x =>
    cases hr : update_asset_supply s c' x with
    | ok p =>
      obtain ⟨-, -, -, hassets⟩ :=
        update_asset_supply_ok_elim _ _ _ p.1 p.2 (by rw [hr])
      have hstep : step s (.updateSupply c' x) = p.1 := by
        simp [step, hr]
      rw [hstep]
      by_cases hc : c = c'
      · subst hc
        unfold get_asset_info
        rw [hassets]
        simp only [if_pos rfl, Option.getD_some]
        exact ⟨hact, rfl⟩
      · have heq : get_asset_info p.1 c = get_asset_info s c := by
          unfold get_asset_info
          rw [hassets]
          simp [hc]
        rw [heq]
        exact ⟨hact, rfl⟩
    | error e =>
      have hstep : step s (.updateSupply c' x) = s := by
        simp [step, hr]
      rw [hstep]
      exact ⟨hact, rfl⟩
  | getInfo c' => exact ⟨hact, rfl⟩
  | getCount => exact ⟨hact, rfl⟩

/-- C8: once a record is stored active, no sequence of invocations ever
resets its active flag or changes its registration time: the flag moves
false to true exactly once, at registration, and the time is frozen there. -/
theorem active_flag_and_time_immutable (s : Storage) (ops : List Op) (c : String)
    (hact : (get_asset_info s c).is_active = true) :
    (get_asset_info (run s ops) c).is_active = true ∧
    (get_asset_info (run s ops) c).registration_time =
      (get_asset_info s c).registration_time := by
  induction ops generalizing s with
  | nil => exact ⟨hact, rfl⟩
  | cons op ops ih =>
    obtain ⟨h1, h2⟩ := step_preserves_active s op c hact
    obtain ⟨h3, h4⟩ := ih (step s op) h1
    rw [run]
    exact ⟨h3, h4.trans h2⟩

theorem active_flag_and_time_immutable_witness :
    (get_asset_info (run wStorage [Op.updateSupply "USDC" 300,
        Op.register 9 "EURT" "GY" 2 "euro", Op.getInfo "USDC", Op.getCount])
      "USDC").is_active = true ∧
    (get_asset_info (run wStorage [Op.updateSupply "USDC" 300,
        Op.register 9 "EURT" "GY" 2 "euro", Op.getInfo "USDC", Op.getCount])
      "USDC").registration_time = (get_asset_info wStorage "USDC").registration_time :=
  active_flag_and_time_immutable wStorage
    [Op.updateSupply "USDC" 300, Op.register 9 "EURT" "GY" 2 "euro",
     Op.getInfo "USDC", Op.getCount] "USDC" rfl

/-- C9: `register_asset` enforces no non-empty-code requirement: with no
active record under the empty string and the counter in `u64` range, it
succeeds, stores an active record under the empty-string key, and increments
the counter, exactly as for any other code. -/
theorem register_asset_accepts_empty_code (env : Env) (s : Storage)
    (issuer : String) (supply : Int) (desc : String)
    (hact : (get_asset_info s "").is_active = false)
    (hrange : s.asset_count.getD 0 + 1 < U64_BOUND) :
    ∃ s', register_asset env s "" issuer supply desc = .ok (s', true) ∧
      s'.assets "" = some { asset_code := "", issuer := issuer,
                            total_supply := supply, description := desc,
                            is_active := true,
                            registration_time := env.timestamp } ∧
      (get_asset_info s' "").is_active = true ∧
      get_total_assets s' = get_total_assets s + 1 := by
  have hok : register_asset env s "" issuer supply desc =
      .ok ({ assets := fun k =>
               if k = "" then
                 some { asset_code := "", issuer := issuer, total_supply := supply,
                        description := desc, is_active := true,
                        registration_time := env.timestamp }
               else s.assets k,
             asset_count := some (s.asset_count.getD 0 + 1) }, true) := by
    unfold register_asset
    simp only [hact, Bool.false_eq_true, if_false, hrange, if_true]
  refine ⟨_, hok, ?_, ?_, ?_⟩
  · simp
  · simp [get_asset_info]
  · simp [get_total_assets]

theorem register_asset_accepts_empty_code_witness :
    ∃ s', register_asset ⟨3⟩ Storage.init "" "GEMPTY" 7 "empty code" =
        .ok (s', true) ∧
      s'.assets "" = some { asset_code := "", issuer := "GEMPTY",
                            total_supply := 7, description := "empty code",
                            is_active := true, registration_time := 3 } ∧
      (get_asset_info s' "").is_active = true ∧
      get_total_assets s' = get_total_assets Storage.init + 1 :=
  register_asset_accepts_empty_code ⟨3⟩ Storage.init "GEMPTY" 7 "empty code"
    rfl (by decide)

/-- C10: the boolean results carry no information: whenever a
`register_asset` or `update_asset_supply` call completes without aborting,
the returned boolean is `true`; neither call can return `false`. -/
theorem mutating_calls_return_true :
    (∀ (env : Env) (s : Storage) (c issuer : String) (supply : Int)
        (desc : String) (s' : Storage) (b : Bool),
      register_asset env s c issuer supply desc = .ok (s', b) → b = true) ∧
    (∀ (s : Storage) (c : String) (x : Int) (s' : Storage) (b : Bool),
      update_asset_supply s c x = .ok (s', b) → b = true) := by
  constructor
  · intro env s c issuer supply desc s' b hok
    exact (register_asset_ok_elim env s c issuer supply desc s' b hok).2.2.1
  · intro s c x s' b hok
    exact (update_asset_supply_ok_elim s c x s' b hok).2.1

theorem mutating_calls_return_true_witness :
    (true : Bool) = true ∧ (true : Bool) = true :=
  ⟨mutating_calls_return_true.1 ⟨5⟩ Storage.init "USDC" "GISS" 100 "USD Coin"
      wStorage true rfl,
   mutating_calls_return_true.2 wStorage "USDC" 200 wStorage2 true rfl⟩

end AssetExplorer
